import Mathlib

/-!
Shallow embedding of `src/vol_toolkit/realized_vol.py`: realized-volatility
estimators (`calculate_realized_vol`, `calculate_parkinson_vol`) and the
GARCH(1,1) forecaster (`forecast_garch`).

Modelling conventions:
* A pandas Series of floats is a `List ℝ` (chronological order, most recent
  last).  A series that may contain NaN entries is a `List (Option ℝ)`
  (`none` = NaN); `dropna` is `List.filterMap id`.
* Python `raise ValueError(msg)` is `Except.error (VolError.valueError msg)`.
* Python `float` arithmetic is modelled over `ℝ`.  The `float("inf")`
  sentinel used for `half_life` is modelled as `none : Option ℝ`.
* `series.iloc[-window:]` keeps the trailing `window` entries, except that
  Python `[-0:]` is the whole series; `ilocLast` reproduces both cases.
* The third-party `arch` fit (`arch_model(...).fit()`) is not part of the
  repository; it is abstracted as a `fitter` argument producing the fitted
  `(omega, alpha, beta)` parameters and the conditional-volatility path,
  which is exactly what `forecast_garch` reads off the fit result.
-/

/-- `TRADING_DAYS_PER_YEAR = 252` from the source. -/
def TRADING_DAYS_PER_YEAR : ℝ := 252

/-- Python `ValueError` with its message. -/
inductive VolError where
  | valueError (msg : String)
  deriving DecidableEq

/-- `series.iloc[-n:]`: the trailing `n` entries, the whole series for `n = 0`
(Python `[-0:]` is `[0:]`). -/
def ilocLast (n : ℕ) (xs : List α) : List α :=
  if n = 0 then xs else xs.drop (xs.length - n)

/-- `np.log(prices / prices.shift(1)).dropna()`: one log return per
consecutive pair of prices. -/
noncomputable def logReturns (prices : List ℝ) : List ℝ :=
  List.zipWith (fun prev cur => Real.log (cur / prev)) prices (prices.drop 1)

/-- Mean of a list of reals (`Series.mean` on NaN-free data). -/
noncomputable def listMean (xs : List ℝ) : ℝ := xs.sum / xs.length

/-- `Series.std()`: sample standard deviation with denominator `n - 1`
(pandas default `ddof=1`). -/
noncomputable def sampleStd (xs : List ℝ) : ℝ :=
  Real.sqrt ((xs.map (fun x => (x - listMean xs) ^ 2)).sum / ((xs.length : ℝ) - 1))

/-- `calculate_realized_vol(prices, window, annualize)` from the source. -/
noncomputable def calculate_realized_vol
    (prices : List ℝ) (window : ℕ) (annualize : Bool) : Except VolError ℝ :=
  let log_returns := logReturns prices
  if log_returns.length < window then
    .error (.valueError
      ("Need at least " ++ toString window ++ " returns, got " ++
        toString log_returns.length))
  else
    let vol := sampleStd (ilocLast window log_returns)
    .ok (if annualize then vol * Real.sqrt TRADING_DAYS_PER_YEAR else vol)

/-- pandas index alignment for `high / low` on default integer indexes:
positions present in both series divide elementwise, positions present in
only one become NaN (`none`). -/
noncomputable def alignDiv : List ℝ → List ℝ → List (Option ℝ)
  | a :: h, b :: l => some (a / b) :: alignDiv h l
  | [], l => l.map (fun _ => none)
  | h, [] => h.map (fun _ => none)

/-- `Series.mean()` with pandas' default `skipna=True`: the mean of the
non-NaN entries. -/
noncomputable def meanSkipNA (xs : List (Option ℝ)) : ℝ :=
  (xs.filterMap id).sum / (xs.filterMap id).length

/-- `calculate_parkinson_vol(high, low, window)` from the source. -/
noncomputable def calculate_parkinson_vol
    (high low : List ℝ) (window : ℕ) : Except VolError ℝ :=
  if high.length < window ∨ low.length < window then
    .error (.valueError ("Need at least " ++ toString window ++ " data points"))
  else
    let log_hl := (alignDiv high low).map (Option.map Real.log)
    let recent := ilocLast window log_hl
    let factor := 1 / (4 * Real.log 2)
    let variance := factor * meanSkipNA (recent.map (Option.map (fun x => x ^ 2)))
    .ok (Real.sqrt (variance * TRADING_DAYS_PER_YEAR))

/-- What `forecast_garch` reads off the fitted `arch` model: the parameters
`omega`, `alpha[1]`, `beta[1]` and the in-sample conditional-volatility
path. -/
structure GarchFit where
  omega : ℝ
  alpha : ℝ
  beta : ℝ
  cond_vol : List ℝ

/-- The dictionary returned by `forecast_garch`.  `half_life = none` models
the Python `float("inf")` sentinel. -/
structure GarchResult where
  current_vol : ℝ
  forecast_vol : ℝ
  persistence : ℝ
  half_life : Option ℝ

/-- Python `round` to an integer: round-half-to-even (banker's rounding). -/
noncomputable def pyRound (x : ℝ) : ℤ :=
  if Int.fract x = 1 / 2 then (if Even ⌊x⌋ then ⌊x⌋ else ⌊x⌋ + 1) else round x

/-- Python `round(x, ndigits)` for a finite value. -/
noncomputable def roundTo (ndigits : ℕ) (x : ℝ) : ℝ :=
  (pyRound (x * 10 ^ ndigits) : ℝ) / 10 ^ ndigits

/-- `persistence = alpha + beta`. -/
def garchPersistence (f : GarchFit) : ℝ := f.alpha + f.beta

/-- `current_var = cond_vol.iloc[-1] ** 2` (last fitted conditional
volatility, squared). -/
def garchCurrentVar (f : GarchFit) : ℝ := f.cond_vol.getLastD 0 ^ 2

/-- `long_run_var`: `omega / (1 - persistence)` when `persistence < 1`,
else `current_var`. -/
noncomputable def garchLongRunVar (f : GarchFit) : ℝ :=
  if garchPersistence f < 1 then f.omega / (1 - garchPersistence f)
  else garchCurrentVar f

/-- `forecast_var = long_run_var + persistence**horizon * (current_var - long_run_var)`. -/
noncomputable def garchForecastVar (f : GarchFit) (horizon : ℕ) : ℝ :=
  garchLongRunVar f +
    garchPersistence f ^ horizon * (garchCurrentVar f - garchLongRunVar f)

/-- `half_life`: `ln 2 / (-ln persistence)` when `0 < persistence < 1`,
else the `inf` sentinel (`none`). -/
noncomputable def garchHalfLife (f : GarchFit) : Option ℝ :=
  if 0 < garchPersistence f ∧ garchPersistence f < 1 then
    some (Real.log 2 / (-Real.log (garchPersistence f)))
  else none

/-- The result dictionary built from a fit (source lines after the guard):
vols are de-scaled by 100, annualized by `sqrt 252`, and every field is
passed through Python `round`. -/
noncomputable def garchFromFit (f : GarchFit) (horizon : ℕ) : GarchResult where
  current_vol :=
    roundTo 4 (Real.sqrt (garchCurrentVar f) / 100 * Real.sqrt TRADING_DAYS_PER_YEAR)
  forecast_vol :=
    roundTo 4 (Real.sqrt (max (garchForecastVar f horizon) 0) / 100 *
      Real.sqrt TRADING_DAYS_PER_YEAR)
  persistence := roundTo 4 (garchPersistence f)
  half_life := (garchHalfLife f).map (roundTo 1)

/-- `returns.dropna()`. -/
def dropna (xs : List (Option ℝ)) : List ℝ := xs.filterMap id

/-- `scaled = returns.dropna() * 100`. -/
noncomputable def garchScaled (returns : List (Option ℝ)) : List ℝ :=
  (dropna returns).map (fun r => r * 100)

/-- `forecast_garch(returns, horizon)` from the source, with the external
`arch` maximum-likelihood fit abstracted as `fitter`. -/
noncomputable def forecast_garch (fitter : List ℝ → GarchFit)
    (returns : List (Option ℝ)) (horizon : ℕ) : Except VolError GarchResult :=
  let scaled := garchScaled returns
  if scaled.length < 100 then
    .error (.valueError "Need at least 100 returns for GARCH estimation")
  else
    .ok (garchFromFit (fitter scaled) horizon)

/-! ### Helper lemmas -/

theorem ilocLast_of_pos {n : ℕ} (h : 1 ≤ n) (xs : List α) :
    ilocLast n xs = xs.drop (xs.length - n) := by
  unfold ilocLast
  rw [if_neg (by omega)]

theorem length_ilocLast {n : ℕ} (xs : List α) (h1 : 1 ≤ n) (h : n ≤ xs.length) :
    (ilocLast n xs).length = n := by
  rw [ilocLast_of_pos h1, List.length_drop]
  omega

theorem ilocLast_map (f : α → β) (n : ℕ) (xs : List α) :
    ilocLast n (xs.map f) = (ilocLast n xs).map f := by
  unfold ilocLast
  split <;> simp [List.map_drop]

theorem dropna_replicate_some (n : ℕ) (x : ℝ) :
    dropna (List.replicate n (some x)) = List.replicate n x := by
  induction n with
  | zero => rfl
  | succ n ih =>
    simp only [dropna] at ih ⊢
    simp [List.replicate_succ, List.filterMap_cons, ih]

theorem pyRound_nonneg {x : ℝ} (h : 0 ≤ x) : 0 ≤ pyRound x := by
  unfold pyRound
  split
  · split
    · exact Int.floor_nonneg.2 h
    · have := Int.floor_nonneg.2 h
      omega
  · rw [round_eq]
    exact Int.floor_nonneg.2 (by linarith)

theorem roundTo_nonneg (n : ℕ) {x : ℝ} (h : 0 ≤ x) : 0 ≤ roundTo n x := by
  unfold roundTo
  apply div_nonneg
  · exact_mod_cast pyRound_nonneg (by positivity)
  · positivity

/-- A constant fit used to instantiate theorems at concrete inputs. -/
def constFit : GarchFit := { omega := 1, alpha := 0, beta := 0, cond_vol := [1] }

theorem garchScaled_replicate_length (n : ℕ) (x : ℝ) :
    (garchScaled (List.replicate n (some x))).length = n := by
  simp [garchScaled, dropna_replicate_some]

/-! ### Claims C1, C3, C10: GARCH forecast formula, precondition, non-negativity -/

/-- C1: on a return series with at least 100 non-NaN values and a horizon
`h ≥ 1`, `forecast_garch` succeeds and computes the `h`-step forecast
variance as `long_run_var + persistence^h * (current_var - long_run_var)`,
with `long_run_var = omega / (1 - persistence)` when `persistence < 1` and
`long_run_var = current_var` when `persistence ≥ 1`. -/
theorem claim_C1 (fitter : List ℝ → GarchFit) (returns : List (Option ℝ))
    (horizon : ℕ) (hlen : 100 ≤ (dropna returns).length) (hh : 1 ≤ horizon) :
    forecast_garch fitter returns horizon =
      Except.ok (garchFromFit (fitter (garchScaled returns)) horizon) ∧
    garchForecastVar (fitter (garchScaled returns)) horizon =
      (if garchPersistence (fitter (garchScaled returns)) < 1 then
          (fitter (garchScaled returns)).omega /
            (1 - garchPersistence (fitter (garchScaled returns)))
        else garchCurrentVar (fitter (garchScaled returns))) +
      garchPersistence (fitter (garchScaled returns)) ^ horizon *
        (garchCurrentVar (fitter (garchScaled returns)) -
          (if garchPersistence (fitter (garchScaled returns)) < 1 then
              (fitter (garchScaled returns)).omega /
                (1 - garchPersistence (fitter (garchScaled returns)))
            else garchCurrentVar (fitter (garchScaled returns)))) := by
  constructor
  · unfold forecast_garch
    rw [if_neg (by simp only [garchScaled, List.length_map]; omega)]
  · rfl

theorem claim_C1_witness :
    forecast_garch (fun _ => constFit) (List.replicate 100 (some (1:ℝ))) 1 =
      Except.ok (garchFromFit ((fun _ => constFit)
        (garchScaled (List.replicate 100 (some (1:ℝ))))) 1) :=
  (claim_C1 (fun _ => constFit) (List.replicate 100 (some (1:ℝ))) 1
    (by rw [dropna_replicate_some, List.length_replicate]) (le_refl 1)).1

/-- C3: on a return series with fewer than 100 non-NaN values,
`forecast_garch` raises (`ValueError`, the spec's `InsufficientData`) with a
message mentioning "100", and never returns a result. -/
theorem claim_C3 (fitter : List ℝ → GarchFit) (returns : List (Option ℝ))
    (horizon : ℕ) (hlen : (dropna returns).length < 100) :
    forecast_garch fitter returns horizon =
      Except.error
        (.valueError "Need at least 100 returns for GARCH estimation") ∧
    "100".toList <:+: "Need at least 100 returns for GARCH estimation".toList := by
  constructor
  · unfold forecast_garch
    rw [if_pos (by simp only [garchScaled, List.length_map]; omega)]
  · decide

theorem claim_C3_witness :
    forecast_garch (fun _ => constFit) [] 5 =
      Except.error
        (.valueError "Need at least 100 returns for GARCH estimation") ∧
    "100".toList <:+: "Need at least 100 returns for GARCH estimation".toList :=
  claim_C3 (fun _ => constFit) [] 5 (by simp [dropna])

/-- C10: for fitted parameters with `omega > 0`, `alpha ≥ 0`, `beta ≥ 0`
(and `current_var` a square, hence non-negative), the forecast variance is
non-negative, so the `max(forecast_var, 0)` clamp never changes the value. -/
theorem claim_C10 (f : GarchFit) (horizon : ℕ)
    (hw : 0 < f.omega) (ha : 0 ≤ f.alpha) (hb : 0 ≤ f.beta) :
    0 ≤ garchForecastVar f horizon ∧
      max (garchForecastVar f horizon) 0 = garchForecastVar f horizon := by
  have hp : 0 ≤ garchPersistence f := add_nonneg ha hb
  have hcv : 0 ≤ garchCurrentVar f := sq_nonneg _
  have key : 0 ≤ garchForecastVar f horizon := by
    unfold garchForecastVar garchLongRunVar
    split
    · rename_i hlt
      have hlrv : 0 < f.omega / (1 - garchPersistence f) := div_pos hw (by linarith)
      have hph1 : garchPersistence f ^ horizon ≤ 1 := pow_le_one₀ hp (le_of_lt hlt)
      have hph0 : 0 ≤ garchPersistence f ^ horizon := pow_nonneg hp _
      nlinarith [hph1, hph0, hlrv, hcv]
    · simp only [sub_self, mul_zero, add_zero]
      exact hcv
  exact ⟨key, max_eq_left key⟩

theorem claim_C10_witness :
    0 ≤ garchForecastVar constFit 5 ∧
      max (garchForecastVar constFit 5) 0 = garchForecastVar constFit 5 :=
  claim_C10 constFit 5 zero_lt_one (le_refl 0) (le_refl 0)

/-! ### Sample standard deviation: sign and the flat-window characterisation -/

theorem list_sum_eq_zero_iff {xs : List ℝ} (h : ∀ x ∈ xs, 0 ≤ x) :
    xs.sum = 0 ↔ ∀ x ∈ xs, x = 0 := by
  induction xs with
  | nil => simp
  | cons a l ih =>
    have ha : 0 ≤ a := h a (by simp)
    have hl : ∀ x ∈ l, 0 ≤ x := fun x hx => h x (by simp [hx])
    have hsl : 0 ≤ l.sum := List.sum_nonneg hl
    rw [List.sum_cons]
    constructor
    · intro h0 x hx
      have ha0 : a = 0 := by linarith
      have hl0 : l.sum = 0 := by linarith
      rcases List.mem_cons.1 hx with rfl | hx
      · exact ha0
      · exact ((ih hl).1 hl0) x hx
    · intro hall
      rw [hall a (by simp), zero_add]
      exact (ih hl).2 fun x hx => hall x (by simp [hx])

theorem list_sum_of_all_eq {xs : List ℝ} {c : ℝ} (h : ∀ x ∈ xs, x = c) :
    xs.sum = c * xs.length := by
  induction xs with
  | nil => simp
  | cons a l ih =>
    rw [List.sum_cons, ih fun x hx => h x (by simp [hx]), h a (by simp)]
    simp only [List.length_cons]
    push_cast
    ring

theorem listMean_of_all_eq {xs : List ℝ} {c : ℝ} (hne : xs ≠ [])
    (h : ∀ x ∈ xs, x = c) : listMean xs = c := by
  have hn : (xs.length : ℝ) ≠ 0 :=
    Nat.cast_ne_zero.2 (List.length_pos.2 hne).ne'
  unfold listMean
  rw [list_sum_of_all_eq h, mul_div_assoc, div_self hn, mul_one]

theorem sampleStd_nonneg (xs : List ℝ) : 0 ≤ sampleStd xs := Real.sqrt_nonneg _

theorem sampleStd_eq_zero_iff {xs : List ℝ} (h2 : 2 ≤ xs.length) :
    sampleStd xs = 0 ↔ ∀ x ∈ xs, ∀ y ∈ xs, x = y := by
  have hne : xs ≠ [] := by
    intro h
    rw [h] at h2
    simp at h2
  have hd : (0:ℝ) < (xs.length : ℝ) - 1 := by
    have : (2:ℝ) ≤ (xs.length : ℝ) := by exact_mod_cast h2
    linarith
  have hsq : ∀ z ∈ xs.map (fun x => (x - listMean xs) ^ 2), 0 ≤ z := by
    intro z hz
    rcases List.mem_map.1 hz with ⟨y, _, rfl⟩
    positivity
  have hS : 0 ≤ (xs.map (fun x => (x - listMean xs) ^ 2)).sum :=
    List.sum_nonneg hsq
  unfold sampleStd
  rw [Real.sqrt_eq_zero']
  constructor
  · intro hle
    have hq : (xs.map fun x => (x - listMean xs) ^ 2).sum / ((xs.length : ℝ) - 1) = 0 :=
      le_antisymm hle (div_nonneg hS hd.le)
    have hS0 : (xs.map fun x => (x - listMean xs) ^ 2).sum = 0 := by
      rcases div_eq_zero_iff.1 hq with h | h
      · exact h
      · linarith
    have hall : ∀ x ∈ xs, x = listMean xs := by
      intro x hx
      have hx0 : (x - listMean xs) ^ 2 = 0 :=
        (list_sum_eq_zero_iff hsq).1 hS0 _ (List.mem_map.2 ⟨x, hx, rfl⟩)
      have := sub_eq_zero.1 (pow_eq_zero_iff (n := 2) (by norm_num) |>.1 hx0)
      linarith
    intro x hx y hy
    rw [hall x hx, hall y hy]
  · intro hsame
    have hall : ∀ x ∈ xs, x = listMean xs := by
      intro x hx
      exact (listMean_of_all_eq hne fun y hy => hsame y hy x hx).symm
    have hS0 : (xs.map fun x => (x - listMean xs) ^ 2).sum = 0 := by
      apply List.sum_eq_zero
      intro z hz
      rcases List.mem_map.1 hz with ⟨y, hy, rfl⟩
      rw [← hall y hy, sub_self]
      norm_num
    rw [hS0, zero_div]

/-! ### Claims C4, C5: close-to-close estimator -/

/-- C4: whenever `calculate_realized_vol` succeeds, the annualized result is
exactly the non-annualized result times `sqrt 252`. -/
theorem claim_C4 (prices : List ℝ) (window : ℕ)
    (hlen : window ≤ (logReturns prices).length) :
    ∃ v, calculate_realized_vol prices window false = Except.ok v ∧
      calculate_realized_vol prices window true =
        Except.ok (v * Real.sqrt 252) := by
  refine ⟨sampleStd (ilocLast window (logReturns prices)), ?_, ?_⟩ <;>
    · unfold calculate_realized_vol
      rw [if_neg (not_lt.2 hlen)]
      rfl

theorem claim_C4_witness :
    ∃ v, calculate_realized_vol [(1:ℝ), 2, 1] 2 false = Except.ok v ∧
      calculate_realized_vol [(1:ℝ), 2, 1] 2 true =
        Except.ok (v * Real.sqrt 252) :=
  claim_C4 [(1:ℝ), 2, 1] 2
    (by simp [logReturns, List.length_zipWith])

/-- C5: for a window `w ≥ 2` available in the return series,
`calculate_realized_vol` succeeds with a non-negative value that is zero
iff the `w` trailing returns are all identical. -/
theorem claim_C5 (prices : List ℝ) (window : ℕ) (annualize : Bool)
    (hw : 2 ≤ window) (hlen : window ≤ (logReturns prices).length) :
    ∃ v, calculate_realized_vol prices window annualize = Except.ok v ∧
      0 ≤ v ∧
      (v = 0 ↔ ∀ x ∈ ilocLast window (logReturns prices),
        ∀ y ∈ ilocLast window (logReturns prices), x = y) := by
  have hys : (ilocLast window (logReturns prices)).length = window :=
    length_ilocLast _ (by omega) hlen
  have h2 : 2 ≤ (ilocLast window (logReturns prices)).length := by omega
  refine ⟨if annualize
      then sampleStd (ilocLast window (logReturns prices)) * Real.sqrt TRADING_DAYS_PER_YEAR
      else sampleStd (ilocLast window (logReturns prices)), ?_, ?_, ?_⟩
  · unfold calculate_realized_vol
    rw [if_neg (not_lt.2 hlen)]
  · split
    · exact mul_nonneg (sampleStd_nonneg _) (Real.sqrt_nonneg _)
    · exact sampleStd_nonneg _
  · have hsqrtT : Real.sqrt TRADING_DAYS_PER_YEAR ≠ 0 := by
      rw [show TRADING_DAYS_PER_YEAR = (252:ℝ) from rfl]
      positivity
    split
    · rw [mul_eq_zero, or_iff_left hsqrtT]
      exact sampleStd_eq_zero_iff h2
    · exact sampleStd_eq_zero_iff h2

theorem claim_C5_witness :
    ∃ v, calculate_realized_vol [(1:ℝ), 2, 1] 2 false = Except.ok v ∧
      0 ≤ v ∧
      (v = 0 ↔ ∀ x ∈ ilocLast 2 (logReturns [(1:ℝ), 2, 1]),
        ∀ y ∈ ilocLast 2 (logReturns [(1:ℝ), 2, 1]), x = y) :=
  claim_C5 [(1:ℝ), 2, 1] 2 false (le_refl 2)
    (by simp [logReturns, List.length_zipWith])

/-! ### Parkinson estimator: reduction to an elementwise pipeline -/

theorem alignDiv_eq_zipWith :
    ∀ {h l : List ℝ}, h.length = l.length →
      alignDiv h l = List.zipWith (fun a b => some (a / b)) h l := by
  intro h
  induction h with
  | nil =>
    intro l hlen
    rw [List.length_eq_zero.1 hlen.symm]
    rfl
  | cons a h ih =>
    intro l hlen
    cases l with
    | nil => simp at hlen
    | cons b l =>
      rw [List.zipWith_cons_cons, show alignDiv (a :: h) (b :: l) =
        some (a / b) :: alignDiv h l from rfl, ih (by simpa using hlen)]

theorem filterMap_id_map_some (ys : List ℝ) : (ys.map some).filterMap id = ys := by
  simp

theorem meanSkipNA_map_some (ys : List ℝ) : meanSkipNA (ys.map some) = listMean ys := by
  unfold meanSkipNA listMean
  rw [filterMap_id_map_some]

theorem parkinson_mean_eq (high low : List ℝ) (window : ℕ)
    (hlen : high.length = low.length) :
    meanSkipNA ((ilocLast window ((alignDiv high low).map (Option.map Real.log))).map
        (Option.map (fun x => x ^ 2))) =
    listMean (ilocLast window
      (List.zipWith (fun a b => Real.log (a / b) ^ 2) high low)) := by
  rw [alignDiv_eq_zipWith hlen, List.map_zipWith]
  simp only [Option.map_some']
  rw [← List.map_zipWith (f := some) (g := fun a b => Real.log (a / b)),
    ilocLast_map, List.map_map,
    show Option.map (fun x : ℝ => x ^ 2) ∘ some = some ∘ (fun x : ℝ => x ^ 2)
      from rfl,
    ← List.map_map, meanSkipNA_map_some, ← ilocLast_map, List.map_zipWith]

/-- Shared evaluation of `calculate_parkinson_vol` on equal-length inputs of
length at least the window. -/
theorem parkinson_ok (high low : List ℝ) (window : ℕ)
    (hlen : high.length = low.length) (hw : window ≤ high.length) :
    calculate_parkinson_vol high low window =
      Except.ok (Real.sqrt (1 / (4 * Real.log 2) *
        listMean (ilocLast window
          (List.zipWith (fun a b => Real.log (a / b) ^ 2) high low)) * 252)) := by
  unfold calculate_parkinson_vol
  rw [if_neg (by push_neg; omega)]
  dsimp only
  rw [show TRADING_DAYS_PER_YEAR = (252:ℝ) from rfl,
    parkinson_mean_eq high low window hlen]

/-! ### Claims C6, C7: the Parkinson formula and the flat-range edge case -/

/-- C6: on paired high/low series with at least `w` points,
`calculate_parkinson_vol` returns
`sqrt((1 / (4 ln 2)) * mean((log(high/low))^2 over the last w) * 252)`. -/
theorem claim_C6 (high low : List ℝ) (window : ℕ)
    (hlen : high.length = low.length) (hw : window ≤ high.length) :
    calculate_parkinson_vol high low window =
      Except.ok (Real.sqrt (1 / (4 * Real.log 2) *
        listMean (ilocLast window
          (List.zipWith (fun a b => Real.log (a / b) ^ 2) high low)) * 252)) :=
  parkinson_ok high low window hlen hw

theorem claim_C6_witness :
    calculate_parkinson_vol [(2:ℝ), 1] [(1:ℝ), 1] 1 =
      Except.ok (Real.sqrt (1 / (4 * Real.log 2) *
        listMean (ilocLast 1
          (List.zipWith (fun a b => Real.log (a / b) ^ 2) [(2:ℝ), 1] [(1:ℝ), 1]))
        * 252)) :=
  claim_C6 [(2:ℝ), 1] [(1:ℝ), 1] 1 rfl (by norm_num)

/-- C7: when high equals low (and is positive) at every point of the
trailing window, `calculate_parkinson_vol` returns exactly `0` instead of
raising. -/
theorem claim_C7 (high low : List ℝ) (window : ℕ)
    (hlen : high.length = low.length) (hw : window ≤ high.length)
    (hfl : ∀ p ∈ ilocLast window (high.zip low), p.1 = p.2 ∧ 0 < p.2) :
    calculate_parkinson_vol high low window = Except.ok 0 := by
  rw [parkinson_ok high low window hlen hw]
  have hzip : List.zipWith (fun a b => Real.log (a / b) ^ 2) high low =
      (high.zip low).map (fun p => Real.log (p.1 / p.2) ^ 2) := by
    rw [show high.zip low = List.zipWith Prod.mk high low from rfl,
      List.map_zipWith]
  have hmean : listMean (ilocLast window
      (List.zipWith (fun a b => Real.log (a / b) ^ 2) high low)) = 0 := by
    rw [hzip, ilocLast_map]
    have hz : ∀ z ∈ (ilocLast window (high.zip low)).map
        (fun p => Real.log (p.1 / p.2) ^ 2), z = 0 := by
      intro z hzmem
      rcases List.mem_map.1 hzmem with ⟨p, hp, rfl⟩
      rcases hfl p hp with ⟨heq, hpos⟩
      rw [heq, div_self (ne_of_gt hpos), Real.log_one]
      norm_num
    unfold listMean
    rw [List.sum_eq_zero hz, zero_div]
  rw [hmean, mul_zero, zero_mul, Real.sqrt_zero]

theorem claim_C7_witness :
    calculate_parkinson_vol [(1:ℝ)] [(1:ℝ)] 1 = Except.ok 0 :=
  claim_C7 [(1:ℝ)] [(1:ℝ)] 1 rfl (le_refl 1)
    (by
      intro p hp
      simp only [ilocLast, List.zip] at hp
      norm_num at hp
      simp [hp])

/-! ### Claims C8, C9: error payloads and the missing length-equality check -/

/-- C8 counterexample: `calculate_parkinson_vol` on 2-point series with
window 9 raises with message "Need at least 9 data points", which does not
carry the actual count 2. -/
theorem claim_C8_counterexample :
    calculate_parkinson_vol [(1:ℝ), 1] [(1:ℝ), 1] 9 =
      Except.error (.valueError "Need at least 9 data points") ∧
    ¬ ((toString (2:ℕ)).toList <:+: "Need at least 9 data points".toList) := by
  constructor
  · unfold calculate_parkinson_vol
    rw [if_pos (by norm_num)]
    rfl
  · decide

/-- C8 (amended): `calculate_realized_vol`'s error message carries both the
required and the actual count; `calculate_parkinson_vol`'s and
`forecast_garch`'s messages carry only the required count. -/
theorem claim_C8_amended
    (prices : List ℝ) (window : ℕ) (annualize : Bool)
    (high low : List ℝ) (window2 : ℕ)
    (fitter : List ℝ → GarchFit) (returns : List (Option ℝ)) (horizon : ℕ)
    (h1 : (logReturns prices).length < window)
    (h2 : high.length < window2 ∨ low.length < window2)
    (h3 : (dropna returns).length < 100) :
    (calculate_realized_vol prices window annualize =
        Except.error (.valueError ("Need at least " ++ toString window ++
          " returns, got " ++ toString (logReturns prices).length)) ∧
      (toString window).toList <:+:
        ("Need at least " ++ toString window ++ " returns, got " ++
          toString (logReturns prices).length).toList ∧
      (toString (logReturns prices).length).toList <:+:
        ("Need at least " ++ toString window ++ " returns, got " ++
          toString (logReturns prices).length).toList) ∧
    (calculate_parkinson_vol high low window2 =
        Except.error (.valueError
          ("Need at least " ++ toString window2 ++ " data points")) ∧
      (toString window2).toList <:+:
        ("Need at least " ++ toString window2 ++ " data points").toList) ∧
    (forecast_garch fitter returns horizon =
        Except.error
          (.valueError "Need at least 100 returns for GARCH estimation") ∧
      "100".toList <:+: "Need at least 100 returns for GARCH estimation".toList) := by
  refine ⟨⟨?_, ?_, ?_⟩, ⟨?_, ?_⟩, ⟨?_, ?_⟩⟩
  · unfold calculate_realized_vol
    rw [if_pos h1]
  · exact ⟨"Need at least ".toList,
      (" returns, got " ++ toString (logReturns prices).length).toList,
      by simp [String.data_append, String.toList]⟩
  · exact ⟨("Need at least " ++ toString window ++ " returns, got ").toList, [],
      by simp [String.data_append, String.toList]⟩
  · unfold calculate_parkinson_vol
    rw [if_pos h2]
  · exact ⟨"Need at least ".toList, " data points".toList,
      by simp [String.data_append, String.toList]⟩
  · unfold forecast_garch
    rw [if_pos (by simp only [garchScaled, List.length_map]; omega)]
  · decide

theorem claim_C8_witness :
    (calculate_realized_vol [(1:ℝ)] 20 true =
        Except.error (.valueError ("Need at least " ++ toString (20:ℕ) ++
          " returns, got " ++ toString (logReturns [(1:ℝ)]).length)) ∧
      (toString (20:ℕ)).toList <:+:
        ("Need at least " ++ toString (20:ℕ) ++ " returns, got " ++
          toString (logReturns [(1:ℝ)]).length).toList ∧
      (toString (logReturns [(1:ℝ)]).length).toList <:+:
        ("Need at least " ++ toString (20:ℕ) ++ " returns, got " ++
          toString (logReturns [(1:ℝ)]).length).toList) ∧
    (calculate_parkinson_vol [(1:ℝ)] [(1:ℝ)] 20 =
        Except.error (.valueError
          ("Need at least " ++ toString (20:ℕ) ++ " data points")) ∧
      (toString (20:ℕ)).toList <:+:
        ("Need at least " ++ toString (20:ℕ) ++ " data points").toList) ∧
    (forecast_garch (fun _ => constFit) [some (1:ℝ)] 5 =
        Except.error
          (.valueError "Need at least 100 returns for GARCH estimation") ∧
      "100".toList <:+: "Need at least 100 returns for GARCH estimation".toList) :=
  claim_C8_amended [(1:ℝ)] 20 true [(1:ℝ)] [(1:ℝ)] 20 (fun _ => constFit)
    [some (1:ℝ)] 5
    (by simp [logReturns])
    (by norm_num)
    (by simp [dropna])

/-- C9 counterexample: on mismatched lengths (4 highs, 3 lows) with window
3, `calculate_parkinson_vol` does not fail at all — it returns a value. -/
theorem claim_C9_counterexample :
    ([(1:ℝ), 1, 1, 1].length ≠ [(1:ℝ), 1, 1].length) ∧
    calculate_parkinson_vol [(1:ℝ), 1, 1, 1] [(1:ℝ), 1, 1] 3 = Except.ok 0 := by
  refine ⟨by norm_num, ?_⟩
  unfold calculate_parkinson_vol
  rw [if_neg (by norm_num)]
  dsimp only
  norm_num [alignDiv, ilocLast, meanSkipNA, Real.log_one, List.filterMap_cons,
    TRADING_DAYS_PER_YEAR, Real.sqrt_zero]

/-- C9 (amended): `calculate_parkinson_vol` performs no length-equality
check: any pair of series each of length at least the window is accepted
and produces a value (pandas aligns the two series by position and the
mean skips the unmatched NaN positions). -/
theorem claim_C9_amended (high low : List ℝ) (window : ℕ)
    (h1 : window ≤ high.length) (h2 : window ≤ low.length) :
    ∃ v, calculate_parkinson_vol high low window = Except.ok v :=
  ⟨_, by
    unfold calculate_parkinson_vol
    rw [if_neg (by push_neg; omega)]⟩

theorem claim_C9_witness :
    ∃ v, calculate_parkinson_vol [(1:ℝ), 2, 3, 4] [(1:ℝ), 2, 3] 2 =
      Except.ok v :=
  claim_C9_amended [(1:ℝ), 2, 3, 4] [(1:ℝ), 2, 3] 2 (by norm_num) (by norm_num)

/-! ### Claim C2: half-life — the returned field is rounded to one decimal -/

theorem roundTo_one_third : roundTo 1 ((1:ℝ)/3) = 3/10 := by
  have hfloor : ⌊(10:ℝ)/3⌋ = 3 := by
    rw [Int.floor_eq_iff] <;> norm_num
  have hfract : Int.fract ((10:ℝ)/3) = 1/3 := by
    rw [Int.fract, hfloor]
    norm_num
  unfold roundTo pyRound
  rw [show (1:ℝ)/3 * 10 ^ (1:ℕ) = 10/3 by norm_num]
  rw [if_neg (by rw [hfract]; norm_num)]
  rw [round_eq, show (10:ℝ)/3 + 1/2 = 23/6 by norm_num,
    show ⌊(23:ℝ)/6⌋ = 3 from by rw [Int.floor_eq_iff] <;> norm_num]
  norm_num

/-- A concrete fit with `persistence = 1/8` (exactly representable after the
4-decimal rounding of the returned `persistence`): the true half-life is
`ln 2 / (3 ln 2) = 1/3`, which is not a multiple of `0.1`. -/
noncomputable def fitEighth : GarchFit :=
  { omega := 1, alpha := 1/8, beta := 0, cond_vol := [1] }

/-- C2 counterexample: with fitted `persistence = 1/8 ∈ (0,1)` the exact
half-life is `1/3`, but the returned `half_life` field is `round(1/3, 1)
= 0.3 ≠ 1/3`: the claimed exact equality fails because the code rounds the
returned field to one decimal place. -/
theorem claim_C2_counterexample :
    forecast_garch (fun _ => fitEighth) (List.replicate 100 (some (1:ℝ))) 5 =
      Except.ok (garchFromFit fitEighth 5) ∧
    0 < garchPersistence fitEighth ∧ garchPersistence fitEighth < 1 ∧
    Real.log 2 / (-Real.log (garchPersistence fitEighth)) = 1/3 ∧
    (garchFromFit fitEighth 5).half_life = some ((3:ℝ)/10) ∧
    ((3:ℝ)/10) ≠ Real.log 2 / (-Real.log (garchPersistence fitEighth)) := by
  have hp : garchPersistence fitEighth = 1/8 := by
    unfold garchPersistence fitEighth
    norm_num
  have hlog : Real.log 2 / (-Real.log (garchPersistence fitEighth)) = 1/3 := by
    rw [hp, show (1:ℝ)/8 = ((8:ℝ))⁻¹ by norm_num, Real.log_inv, neg_neg,
      show (8:ℝ) = 2 ^ (3:ℕ) by norm_num, Real.log_pow]
    have hl2 : Real.log 2 ≠ 0 := ne_of_gt (Real.log_pos (by norm_num))
    push_cast
    field_simp
    ring
  refine ⟨?_, ?_, ?_, hlog, ?_, ?_⟩
  · unfold forecast_garch
    rw [if_neg (by rw [garchScaled_replicate_length 100 1]; omega)]
  · rw [hp]; norm_num
  · rw [hp]; norm_num
  · show (garchHalfLife fitEighth).map (roundTo 1) = some ((3:ℝ)/10)
    rw [show garchHalfLife fitEighth =
        some (Real.log 2 / (-Real.log (garchPersistence fitEighth))) from by
      unfold garchHalfLife
      rw [if_pos ⟨by rw [hp]; norm_num, by rw [hp]; norm_num⟩]]
    rw [Option.map_some', hlog, roundTo_one_third]
  · rw [hlog]; norm_num

/-- C2 (amended): the returned `persistence` is non-negative (given the
fit constraints `alpha, beta ≥ 0`); when `persistence ≥ 1` the returned
`half_life` is the infinity sentinel; when `0 < persistence < 1` the
returned `half_life` is `ln 2 / (-ln persistence)` rounded to one decimal
place (Python `round(x, 1)`). -/
theorem claim_C2_amended (fitter : List ℝ → GarchFit)
    (returns : List (Option ℝ)) (horizon : ℕ)
    (hlen : 100 ≤ (dropna returns).length)
    (ha : 0 ≤ (fitter (garchScaled returns)).alpha)
    (hb : 0 ≤ (fitter (garchScaled returns)).beta) :
    ∃ r, forecast_garch fitter returns horizon = Except.ok r ∧
      0 ≤ r.persistence ∧
      (1 ≤ garchPersistence (fitter (garchScaled returns)) →
        r.half_life = none) ∧
      (0 < garchPersistence (fitter (garchScaled returns)) →
        garchPersistence (fitter (garchScaled returns)) < 1 →
        r.half_life = some (roundTo 1 (Real.log 2 /
          (-Real.log (garchPersistence (fitter (garchScaled returns))))))) := by
  refine ⟨garchFromFit (fitter (garchScaled returns)) horizon, ?_, ?_, ?_, ?_⟩
  · unfold forecast_garch
    rw [if_neg (by simp only [garchScaled, List.length_map]; omega)]
  · exact roundTo_nonneg 4 (add_nonneg ha hb)
  · intro h1
    show (garchHalfLife _).map (roundTo 1) = none
    unfold garchHalfLife
    rw [if_neg (by push_neg; intro _; linarith)]
    rfl
  · intro h0 hlt
    show (garchHalfLife _).map (roundTo 1) = _
    unfold garchHalfLife
    rw [if_pos ⟨h0, hlt⟩, Option.map_some']

theorem claim_C2_witness :
    ∃ r, forecast_garch (fun _ => fitEighth)
        (List.replicate 100 (some (1:ℝ))) 5 = Except.ok r ∧
      0 ≤ r.persistence ∧
      (1 ≤ garchPersistence ((fun _ => fitEighth)
          (garchScaled (List.replicate 100 (some (1:ℝ))))) →
        r.half_life = none) ∧
      (0 < garchPersistence ((fun _ => fitEighth)
          (garchScaled (List.replicate 100 (some (1:ℝ))))) →
        garchPersistence ((fun _ => fitEighth)
          (garchScaled (List.replicate 100 (some (1:ℝ))))) < 1 →
        r.half_life = some (roundTo 1 (Real.log 2 /
          (-Real.log (garchPersistence ((fun _ => fitEighth)
            (garchScaled (List.replicate 100 (some (1:ℝ)))))))))) :=
  claim_C2_amended (fun _ => fitEighth) (List.replicate 100 (some (1:ℝ))) 5
    (by rw [dropna_replicate_some, List.length_replicate])
    (by norm_num [fitEighth])
    (by norm_num [fitEighth])
